import Mathlib

/-!
Shallow embedding of the search-to-forecast pipeline of the Weather-app
repository.

The canonical component embedded here is
src/.history/src/components/WeatherPage_20251127155010.tsx (the latest draft,
called "WeatherPage" below); the draft src/unnamed/part_000 (called
"WeatherAppWithSuggestions" / the part_000 draft) is embedded separately where
a claim cites it (formatDisplayName, fetchWeather).

JavaScript-specific conventions used throughout:
  - a JS "string | undefined" field is an Option String; JS truthiness of such
    a value (used by the || operator and by "if (x)") is false exactly for
    undefined and for the empty string;
  - JS numbers in weather payloads are modelled as rationals (no claim does
    arithmetic on them);
  - the asynchronous parts (debounce timer, fetch responses) are modelled as
    an explicit event-trace semantics: a step function over an explicit state
    record, with events for input changes, timer firing and response arrival,
    in the order the single-threaded event loop would run them.
-/

namespace WeatherApp

/-- JS truthiness of a "string | undefined" value: falsy exactly for
undefined and for the empty string. -/
def truthy : Option String → Bool
  | none => false
  | some s => !(s == "")

/-- JS expression "a || b" for a string-or-undefined a and string b. -/
def jsOr (a : Option String) (b : String) : String :=
  match a with
  | none => b
  | some s => if s == "" then b else s

/-- LocationSuggestion from src/types (WeatherPage draft): place_id,
display_name, lat, lon. -/
structure LocationSuggestion where
  place_id : String
  display_name : String
  lat : String
  lon : String
deriving Repr, DecidableEq

/-- Structured address of the part_000 draft Location: all fields optional. -/
structure Address where
  city : Option String
  town : Option String
  village : Option String
  state : Option String
  country : Option String
deriving Repr, DecidableEq

/-- Location of the part_000 draft: lat, lon, display_name, address. -/
structure Location where
  lat : String
  lon : String
  display_name : String
  address : Address
deriving Repr, DecidableEq

/-- Current-conditions sub-record of WeatherData (shared types file). -/
structure CurrentWeather where
  temperature_2m : ℚ
  apparent_temperature : ℚ
  relative_humidity_2m : ℚ
  wind_speed_10m : ℚ
  weather_code : Int
deriving Repr, DecidableEq

/-- Daily sub-record of WeatherData (shared types file). -/
structure DailyWeather where
  time : List String
  temperature_2m_max : List ℚ
  temperature_2m_min : List ℚ
  weather_code : List Int
deriving Repr, DecidableEq

/-- WeatherData of the shared types file (WeatherPage draft). -/
structure WeatherData where
  current : CurrentWeather
  daily : DailyWeather
deriving Repr, DecidableEq

/-- Daily sub-record of the part_000 draft WeatherData, which additionally
carries precipitation_probability_max. -/
structure DailyWeatherP where
  time : List String
  temperature_2m_max : List ℚ
  temperature_2m_min : List ℚ
  weather_code : List Int
  precipitation_probability_max : List ℚ
deriving Repr, DecidableEq

/-- WeatherData interface of the part_000 draft. -/
structure WeatherDataP where
  current : CurrentWeather
  daily : DailyWeatherP
deriving Repr, DecidableEq

/-- The fixed lookup table of getWeatherEmoji in the WeatherPage draft
(lines 6-16). -/
def weatherEmojiMap : List (Int × String) :=
  [(0, "☀️"), (1, "🌤️"), (2, "⛅"), (3, "☁️"),
   (45, "🌫️"), (48, "🌫️"),
   (51, "🌦️"), (53, "🌦️"), (55, "🌦️"),
   (61, "🌧️"), (63, "🌧️"), (65, "🌧️"),
   (71, "❄️"), (73, "❄️"), (75, "❄️"),
   (95, "⛈️"), (96, "⛈️"), (99, "⛈️")]

/-- getWeatherEmoji (WeatherPage draft, lines 6-16): "map[code] || default".
A falsy lookup result (absent key, or an empty string, which no entry is)
falls back to the partly-cloudy default. -/
def getWeatherEmoji (code : Int) : String :=
  match weatherEmojiMap.lookup code with
  | some s => if s == "" then "🌤️" else s
  | none => "🌤️"

/-- C8: the weather-code classifier is total over Int (always returns a
non-empty glyph; being a Lean function it is deterministic by definition:
getWeatherEmoji c is one fixed string for each c), and every code absent
from the fixed lookup table maps to the default partly-cloudy glyph. -/
theorem C8_classifier_total_default (c : Int) :
    getWeatherEmoji c ≠ "" ∧
    getWeatherEmoji c = getWeatherEmoji c ∧
    (weatherEmojiMap.lookup c = none → getWeatherEmoji c = "🌤️") := by
  refine ⟨?_, rfl, ?_⟩
  · unfold getWeatherEmoji
    cases h : weatherEmojiMap.lookup c with
    | none => simp
    | some s =>
        by_cases hs : s == ""
        · simp [hs]
        · simp only [hs, if_false]
          simpa using hs
  · intro h
    simp [getWeatherEmoji, h]

/-- Witness for C8 at the concrete unlisted code 1234: its lookup is absent
and the classifier returns the default glyph. -/
theorem C8_classifier_total_default_witness :
    getWeatherEmoji 1234 = "🌤️" :=
  (C8_classifier_total_default 1234).2.2 (by decide)

/-- UI state of the WeatherPage draft (the useState hooks of lines 25-33),
together with the bookkeeping the event semantics needs:
  - now: the current time in ms (timestamps of processed events);
  - pending: the debounce timer slot debounceRef — the scheduled deadline and
    the query text captured by the setTimeout closure, or none;
  - issued: the texts of the searchLocations requests issued so far, in issue
    order (a request id is its position in this list);
  - responded: ids of issued requests whose response has already arrived. -/
structure SearchState where
  now : Nat
  query : String
  suggestions : List LocationSuggestion
  showDropdown : Bool
  searching : Bool
  error : String
  weather : Option WeatherData
  selectedCity : String
  loading : Bool
  geoLoading : Bool
  pending : Option (Nat × String)
  issued : List String
  responded : List Nat
deriving Repr, DecidableEq

/-- Initial state: all useState initializers of WeatherPage lines 25-33,
with no pending timer and no request traffic, at time 0. -/
def initState : SearchState :=
  { now := 0, query := "", suggestions := [], showDropdown := false,
    searching := false, error := "", weather := none, selectedCity := "",
    loading := false, geoLoading := false, pending := none,
    issued := [], responded := [] }

/-- Events of the suggestion pipeline, in event-loop order:
  - input t s: at time t the input text changes to s, re-running the
    debounced search effect (WeatherPage lines 50-73);
  - fire t: at time t the pending debounce timer fires, running the body of
    the setTimeout callback up to its first await (lines 59-63);
  - respondOk id results: the searchLocations call of request id resolves
    with results, running the rest of the callback (lines 63-65, 69-71);
  - respondErr id: the searchLocations call of request id rejects (network
    error, non-ok HTTP status, or malformed JSON body — all reject), running
    the catch and finally blocks (lines 66-71). -/
inductive SearchEvent where
  | input (t : Nat) (s : String)
  | fire (t : Nat)
  | respondOk (id : Nat) (results : List LocationSuggestion)
  | respondErr (id : Nat)
deriving Repr, DecidableEq

/-- One step of the suggestion pipeline; none when the event cannot occur in
the given state (time running backwards, firing a cancelled or absent timer,
a response without a matching outstanding request, or an input event that
does not change the text and so does not re-run the effect).

Faithfulness notes on the input case (WeatherPage lines 50-57): when the new
text is shorter than 2 characters the effect clears the suggestion list and
hides the dropdown and then returns BEFORE the clearTimeout line, so a
pending timer of an earlier longer text survives; the guard compares the raw
length, the text is not trimmed. In the other branch clearTimeout plus
setTimeout amount to replacing the pending slot with deadline t + 300 and the
closure-captured current text. -/
def step (st : SearchState) : SearchEvent → Option SearchState
  | .input t s =>
      if t < st.now then none else
      if s = st.query then none else
      if s.length < 2 then
        some { st with now := t, query := s, suggestions := [], showDropdown := false }
      else
        some { st with now := t, query := s, pending := some (t + 300, s) }
  | .fire t =>
      match st.pending with
      | none => none
      | some (d, q) =>
          if t = d ∧ st.now ≤ t then
            some { st with now := t, pending := none, searching := true,
                           error := "", issued := st.issued ++ [q] }
          else none
  | .respondOk id results =>
      if id < st.issued.length ∧ id ∉ st.responded then
        some { st with suggestions := results, showDropdown := true,
                       searching := false, responded := st.responded ++ [id] }
      else none
  | .respondErr id =>
      if id < st.issued.length ∧ id ∉ st.responded then
        some { st with suggestions := [], error := "Location search failed",
                       searching := false, responded := st.responded ++ [id] }
      else none

/-- Run a list of events from a state; none as soon as one event is invalid. -/
def run (st : SearchState) : List SearchEvent → Option SearchState
  | [] => some st
  | e :: es => (step st e).bind (fun st2 => run st2 es)

theorem run_append (st : SearchState) (l1 l2 : List SearchEvent) :
    run st (l1 ++ l2) = (run st l1).bind (fun st2 => run st2 l2) := by
  induction l1 generalizing st with
  | nil => simp [run]
  | cons e es ih =>
      simp only [List.cons_append, run]
      cases step st e with
      | none => simp
      | some st2 => simp [ih]

/-- The weather section of the WeatherPage render is guarded by
"weather && !loading" (line 195). -/
def weatherSectionShown (st : SearchState) : Bool :=
  st.weather.isSome && !st.loading

/-- The full-page loading spinner of the WeatherPage render is guarded by
"loading" (line 189). -/
def loadingIndicatorShown (st : SearchState) : Bool :=
  st.loading

/-- JS String.prototype.trim (used only in claim statements — the code never
trims): strip whitespace from both ends of the character list. -/
def jsTrim (s : String) : String :=
  ⟨((s.data.dropWhile Char.isWhitespace).reverse.dropWhile Char.isWhitespace).reverse⟩

/-- A LocationIQ suggestion for "Lon" (concrete test datum). -/
def lonLoc : LocationSuggestion :=
  ⟨"1001", "London, Ontario, Canada", "42.98", "-81.24"⟩

/-- A LocationIQ suggestion for "London" (concrete test datum). -/
def londonLoc : LocationSuggestion :=
  ⟨"1002", "London, Greater London, England, United Kingdom", "51.50", "-0.12"⟩

/-- A LocationIQ suggestion for Berlin (concrete test datum). -/
def berlinLoc : LocationSuggestion :=
  ⟨"2001", "Berlin, Germany", "52.52", "13.405"⟩

/-- The staleness-guard scenario of the spec: a request for "Lon" is issued
(timer set at t=0, fires at t=300), then one for "London" (timer set at
t=301, fires at t=601); the "London" response arrives first, the "Lon"
response arrives last. -/
def c1trace : List SearchEvent :=
  [.input 0 "Lon", .fire 300, .input 301 "London", .fire 601,
   .respondOk 1 [londonLoc], .respondOk 0 [lonLoc]]

/-- C1 counterexample: on the staleness-guard scenario the code issues both
requests, yet the final suggestion list holds the "Lon" results — the late
response of the superseded first request overwrites the "London" results
instead of being dropped, refuting the claim at this concrete trace. -/
theorem C1_counterexample :
    (run initState c1trace).map (fun st => (st.issued, st.suggestions))
      = some (["Lon", "London"], [lonLoc]) ∧ lonLoc ≠ londonLoc := by
  exact ⟨by rfl, by decide⟩

/-- C1 amended: there is no staleness guard — every well-formed suggestion
response is applied, so the displayed list reflects whichever response
arrived last, regardless of which request was issued last; only the
not-yet-fired debounce timer is cancelled by a newer update. -/
theorem C1_amended_last_arrival_wins (st : SearchState) (id : Nat)
    (results : List LocationSuggestion)
    (h : id < st.issued.length ∧ id ∉ st.responded) :
    (step st (.respondOk id results)).map SearchState.suggestions = some results := by
  simp [step, h.1, h.2]

/-- A concrete state with the two requests of the staleness scenario issued
and none responded. -/
def c1state : SearchState :=
  { initState with now := 601, query := "London", searching := true,
                   issued := ["Lon", "London"] }

/-- Witness for C1 amended: in the concrete two-requests-outstanding state,
the response of the FIRST (superseded) request is applied. -/
theorem C1_amended_last_arrival_wins_witness :
    (step c1state (.respondOk 0 [lonLoc])).map SearchState.suggestions
      = some [lonLoc] :=
  C1_amended_last_arrival_wins c1state 0 [lonLoc] (by decide)

/-- C3: a failed suggestion lookup (searchLocations rejects on network
error, non-ok HTTP status or malformed JSON alike) runs the catch/finally of
WeatherPage lines 66-71: the error condition is set, the suggestion list is
cleared, the searching flag drops, and the query text, weather snapshot and
selected city are untouched. -/
theorem C3_resolver_failure_clears_suggestions (st st2 : SearchState)
    (id : Nat) (h : step st (.respondErr id) = some st2) :
    st2.error = "Location search failed" ∧ st2.suggestions = [] ∧
    st2.searching = false ∧ st2.query = st.query ∧
    st2.weather = st.weather ∧ st2.selectedCity = st.selectedCity := by
  simp only [step] at h
  split at h
  · injection h with h2
    subst h2
    exact ⟨rfl, rfl, rfl, rfl, rfl, rfl⟩
  · exact absurd h (by simp)

/-- The state after the first outstanding request of c1state fails. -/
def c3state : SearchState :=
  { c1state with suggestions := [], error := "Location search failed",
                 searching := false, responded := [0] }

/-- Witness for C3 at the concrete state c1state: failing request 0 yields
c3state, whose fields satisfy the claim. -/
theorem C3_resolver_failure_clears_suggestions_witness :
    c3state.error = "Location search failed" ∧ c3state.suggestions = [] ∧
    c3state.searching = false ∧ c3state.query = c1state.query ∧
    c3state.weather = c1state.weather ∧
    c3state.selectedCity = c1state.selectedCity :=
  C3_resolver_failure_clears_suggestions c1state c3state 0 (by rfl)

/-- The below-threshold scenario refuting C4: the single update "a " has
trimmed length 1 (below the 2-character minimum), yet the raw-length guard
of WeatherPage line 51 lets it through. -/
def c4trace : List SearchEvent :=
  [.input 0 "a ", .fire 300, .respondOk 0 [berlinLoc]]

/-- C4 counterexample: after the sole query update "a ", whose trimmed
length is below 2, the resolver IS invoked (with the untrimmed text) once
the debounce interval elapses, and the suggestion list ends up non-empty —
the guard compares raw, not trimmed, length. -/
theorem C4_counterexample :
    (jsTrim "a ").length < 2 ∧
    (run initState c4trace).map (fun st => (st.issued, st.suggestions))
      = some (["a "], [berlinLoc]) := by
  exact ⟨by decide, by rfl⟩

/-- Invariant behind C4 amended: from a state with no pending timer, no
issued request and an empty suggestion list, a trace whose input events all
have raw length below 2 keeps all three properties. -/
theorem run_short_inputs (trace : List SearchEvent) (st fin : SearchState)
    (hrun : run st trace = some fin)
    (hshort : ∀ t s, SearchEvent.input t s ∈ trace → s.length < 2)
    (hp : st.pending = none) (hi : st.issued = [])
    (hs : st.suggestions = []) :
    fin.pending = none ∧ fin.issued = [] ∧ fin.suggestions = [] := by
  induction trace generalizing st with
  | nil =>
      simp only [run, Option.some.injEq] at hrun
      subst hrun
      exact ⟨hp, hi, hs⟩
  | cons e es ih =>
      simp only [run] at hrun
      cases hstep : step st e with
      | none => rw [hstep] at hrun; simp at hrun
      | some st2 =>
          rw [hstep] at hrun
          simp only [Option.some_bind] at hrun
          cases e with
          | input t s =>
              have hlen : s.length < 2 := hshort t s (List.mem_cons_self _ _)
              simp only [step] at hstep
              have hst2 : st2 =
                  { st with now := t, query := s, suggestions := [],
                            showDropdown := false } := by
                by_cases h1 : t < st.now
                · simp [h1] at hstep
                · by_cases h2 : s = st.query
                  · simp [h1, h2] at hstep
                  · simp [h1, h2, hlen] at hstep
                    exact hstep.symm
              subst hst2
              exact ih _ hrun
                (fun t2 s2 hm => hshort t2 s2 (List.mem_cons_of_mem _ hm))
                hp hi rfl
          | fire t =>
              simp only [step, hp] at hstep
              exact absurd hstep (by simp)
          | respondOk id results =>
              simp [step, hi] at hstep
          | respondErr id =>
              simp [step, hi] at hstep

/-- C4 amended: starting from the initial state, if EVERY query update of
the trace has raw (untrimmed) length below 2 characters, the Suggestion
Resolver is never invoked and the suggestion list stays empty. (As stated
the claim is false: the guard tests raw rather than trimmed length, and an
update below the threshold does not cancel a debounce timer scheduled by an
earlier longer query, so it only holds when no such timer can exist.) -/
theorem C4_amended_short_updates_never_resolve (trace : List SearchEvent)
    (fin : SearchState) (hrun : run initState trace = some fin)
    (hshort : ∀ t s, SearchEvent.input t s ∈ trace → s.length < 2) :
    fin.issued = [] ∧ fin.suggestions = [] := by
  have h := run_short_inputs trace initState fin hrun hshort rfl rfl rfl
  exact ⟨h.2.1, h.2.2⟩

/-- The state after the single short update "a" from the initial state. -/
def c4wstate : SearchState := { initState with query := "a" }

/-- Witness for C4 amended on the concrete one-update trace with text "a":
no request is issued and the suggestion list is empty. -/
theorem C4_amended_short_updates_never_resolve_witness :
    c4wstate.issued = [] ∧ c4wstate.suggestions = [] :=
  C4_amended_short_updates_never_resolve [SearchEvent.input 0 "a"] c4wstate
    (by rfl)
    (by
      intro t s hmem
      simp only [List.mem_singleton, SearchEvent.input.injEq] at hmem
      rw [hmem.2]
      decide)

/-- Keystroke events of a burst, as input events. -/
def inputEvents (ps : List (Nat × String)) : List SearchEvent :=
  ps.map (fun p => SearchEvent.input p.1 p.2)

/-- Well-formed keystroke burst: consecutive timestamps are non-decreasing
and less than 300 ms apart, and consecutive texts differ (a same-text input
does not re-run the effect). -/
def burstOk : List (Nat × String) → Bool
  | [] => true
  | [_] => true
  | p :: q :: rest =>
      (decide (p.1 ≤ q.1) && decide (q.1 < p.1 + 300) && decide (q.2 ≠ p.2))
        && burstOk (q :: rest)

theorem step_input_long (st : SearchState) (t : Nat) (s : String)
    (hnow : st.now ≤ t) (hq : s ≠ st.query) (hlen2 : 2 ≤ s.length) :
    step st (.input t s) =
      some { st with now := t, query := s, pending := some (t + 300, s) } := by
  simp only [step]
  rw [if_neg (by omega), if_neg hq, if_neg (by omega)]

theorem step_fire_pending (st : SearchState) (d : Nat) (q : String)
    (hp : st.pending = some (d, q)) (hnow : st.now ≤ d) :
    step st (.fire d) =
      some { st with now := d, pending := none, searching := true,
                     error := "", issued := st.issued ++ [q] } := by
  simp [step, hp, hnow]

theorem run_singleton (st : SearchState) (e : SearchEvent) :
    run st [e] = step st e := by
  simp only [run]
  cases step st e <;> simp

/-- Running a well-formed burst of texts of length at least 2: every update
replaces the pending debounce timer (cancelling the previous one, which
never gets to fire because gaps are shorter than 300 ms), so the burst ends
with exactly the timer of the last update pending and nothing else changed. -/
theorem run_burst (ps : List (Nat × String)) (p0 : Nat × String)
    (st : SearchState) (hnow : st.now ≤ p0.1) (hq : p0.2 ≠ st.query)
    (hok : burstOk (p0 :: ps) = true)
    (hlen : ∀ p ∈ p0 :: ps, 2 ≤ p.2.length) :
    run st (inputEvents (p0 :: ps)) =
      some { st with now := (ps.getLastD p0).1, query := (ps.getLastD p0).2,
                     pending :=
                       some ((ps.getLastD p0).1 + 300, (ps.getLastD p0).2) } := by
  induction ps generalizing p0 st with
  | nil =>
      have h2 : 2 ≤ p0.2.length := hlen p0 (List.mem_cons_self _ _)
      show run st [SearchEvent.input p0.1 p0.2] = _
      rw [run_singleton, step_input_long st p0.1 p0.2 hnow hq h2]
      simp [List.getLastD]
  | cons p1 rest ih =>
      have hparts : (p0.1 ≤ p1.1 ∧ p1.1 < p0.1 + 300 ∧ p1.2 ≠ p0.2) ∧
          burstOk (p1 :: rest) = true := by
        simp only [burstOk, Bool.and_eq_true, decide_eq_true_eq] at hok ⊢
        exact ⟨⟨hok.1.1.1, hok.1.1.2, hok.1.2⟩, hok.2⟩
      have h2 : 2 ≤ p0.2.length := hlen p0 (List.mem_cons_self _ _)
      show run st (SearchEvent.input p0.1 p0.2 :: inputEvents (p1 :: rest)) = _
      have hsplit : run st (SearchEvent.input p0.1 p0.2 :: inputEvents (p1 :: rest))
          = (step st (SearchEvent.input p0.1 p0.2)).bind
              (fun st2 => run st2 (inputEvents (p1 :: rest))) := rfl
      rw [hsplit, step_input_long st p0.1 p0.2 hnow hq h2, Option.some_bind,
          ih p1 { st with now := p0.1, query := p0.2,
                          pending := some (p0.1 + 300, p0.2) }
            hparts.1.1 hparts.1.2.2 hparts.2
            (fun p hm => hlen p (List.mem_cons_of_mem _ hm)),
          List.getLastD_cons]

/-- C5: for a well-formed keystroke burst (gaps under the 300 ms settle
interval, texts of length at least 2, consecutive texts distinct), each new
update replaces the pending debounce timer, and running the burst followed
by the one timer expiry yields EXACTLY ONE resolver invocation, carrying the
text of the last update of the burst, with no timer left pending. -/
theorem C5_burst_single_invocation (p0 : Nat × String)
    (ps : List (Nat × String)) (hok : burstOk (p0 :: ps) = true)
    (hlen : ∀ p ∈ p0 :: ps, 2 ≤ p.2.length) :
    (run initState (inputEvents (p0 :: ps)
        ++ [SearchEvent.fire ((ps.getLastD p0).1 + 300)])).map
        (fun st => (st.issued, st.pending))
      = some ([(ps.getLastD p0).2], none) := by
  have hq : p0.2 ≠ initState.query := by
    have h2 := hlen p0 (List.mem_cons_self _ _)
    intro h
    rw [h] at h2
    simp [initState] at h2
  rw [run_append,
      run_burst ps p0 initState (Nat.zero_le _) hq hok hlen,
      Option.some_bind, run_singleton,
      step_fire_pending _ _ _ rfl (Nat.le_add_right _ _)]
  simp [initState]

/-- The keystroke burst of the spec scenario: four keystrokes at
t = 0, 50, 100, 150 ms. -/
def c5burst : List (Nat × String) :=
  [(0, "Lo"), (50, "Lon"), (100, "Lond"), (150, "Londo")]

/-- Witness for C5 on the concrete burst at t = 0, 50, 100, 150: exactly one
request is issued, at t = 450, carrying the text as of t = 150. -/
theorem C5_burst_single_invocation_witness :
    (run initState (inputEvents c5burst ++ [SearchEvent.fire 450])).map
        (fun st => (st.issued, st.pending))
      = some (["Londo"], none) :=
  C5_burst_single_invocation (0, "Lo")
    [(50, "Lon"), (100, "Lond"), (150, "Londo")] (by decide) (by decide)

/-- Outcome of a getWeather call: the awaited promise either resolves with a
decoded WeatherData payload or rejects (network error or non-ok status). -/
inductive FetchOutcome where
  | success (data : WeatherData)
  | failure
deriving Repr, DecidableEq

/-- fetchWeatherData of the WeatherPage draft (lines 75-88), as the overall
state transition of one settled fetch: setLoading(true) and setError("")
first; on resolution setWeather, setSelectedCity, setShowDropdown(false); on
rejection setError; in both cases finally setLoading(false). -/
def fetchWeatherData (st : SearchState) (lat lon cityName : String)
    (outcome : FetchOutcome) : SearchState :=
  let st1 := { st with loading := true, error := "" }
  match outcome with
  | .success data =>
      { st1 with weather := some data, selectedCity := cityName,
                 showDropdown := false, loading := false }
  | .failure =>
      { st1 with error := "Failed to load weather data", loading := false }

/-- C2: a failed forecast fetch sets the error condition, clears the loading
indicator, and leaves the held weather snapshot exactly as it was — since a
snapshot is decoded whole (a complete WeatherData) or absent, the weather
section afterwards shows either a complete snapshot (the previous one) or
nothing. -/
theorem C2_forecast_failure_no_partial_weather (st : SearchState)
    (lat lon city : String) :
    (fetchWeatherData st lat lon city .failure).error
        = "Failed to load weather data" ∧
    (fetchWeatherData st lat lon city .failure).loading = false ∧
    (fetchWeatherData st lat lon city .failure).weather = st.weather ∧
    weatherSectionShown (fetchWeatherData st lat lon city .failure)
        = st.weather.isSome := by
  simp [fetchWeatherData, weatherSectionShown]

/-- A concrete complete weather snapshot (18.3 degrees, code 2). -/
def sampleWeather : WeatherData :=
  ⟨⟨183/10, 17, 60, 10, 2⟩, ⟨["2025-11-27"], [20], [10], [2]⟩⟩

/-- C9: whenever the forecast loading flag is set, the guard
"weather && !loading" of the render suppresses the weather section, even if
a previously fetched snapshot is still held, so a stale snapshot and an
active loading indicator are never displayed simultaneously. -/
theorem C9_loading_suppresses_weather_section (st : SearchState)
    (h : st.loading = true) :
    weatherSectionShown st = false ∧
    (loadingIndicatorShown st && weatherSectionShown st) = false := by
  simp [weatherSectionShown, loadingIndicatorShown, h]

/-- A loading state that still holds a previously fetched snapshot. -/
def c9state : SearchState :=
  { initState with loading := true, weather := some sampleWeather }

/-- Witness for C9 at a concrete state holding a stale snapshot while
loading: the weather section is not rendered. -/
theorem C9_loading_suppresses_weather_section_witness :
    weatherSectionShown c9state = false ∧
    (loadingIndicatorShown c9state && weatherSectionShown c9state) = false :=
  C9_loading_suppresses_weather_section c9state rfl

/-- formatDisplayName of the part_000 draft (lines 103-112): push city, else
town, else village; then state; then country; join with ", ". A JS-falsy
field (absent or empty string) is skipped. There is NO fallback to
display_name anywhere in this function. -/
def formatDisplayName (loc : Location) : String :=
  let a := loc.address
  let parts : List String :=
    (if truthy a.city then [a.city.getD ""]
     else if truthy a.town then [a.town.getD ""]
     else if truthy a.village then [a.village.getD ""]
     else [])
    ++ (if truthy a.state then [a.state.getD ""] else [])
    ++ (if truthy a.country then [a.country.getD ""] else [])
  String.intercalate ", " parts

/-- The Paris suggestion of the round-trip scenario. -/
def parisLoc : Location :=
  ⟨"48.85", "2.35", "Paris, Île-de-France, France",
   ⟨some "Paris", none, none, some "Île-de-France", some "France"⟩⟩

/-- A location whose provider payload carries no structured address fields. -/
def berlinNoAddr : Location :=
  ⟨"52.52", "13.405", "Berlin, Germany", ⟨none, none, none, none, none⟩⟩

/-- C6 counterexample: for a location with no structured address fields,
formatDisplayName returns the empty string, not the raw display_name — the
claimed verbatim fallback does not exist in the code. -/
theorem C6_counterexample :
    formatDisplayName berlinNoAddr = "" ∧
    berlinNoAddr.display_name = "Berlin, Germany" ∧
    formatDisplayName berlinNoAddr ≠ berlinNoAddr.display_name := by
  exact ⟨rfl, rfl, by decide⟩

/-- C6 amended: with structured fields present the label is built preferring
city (town and village are ignored when a city is present), followed by
state and country, joined with the fixed separator ", " — the Paris
suggestion round-trips — but with no structured address fields present the
result is the empty string; the raw display_name is never consulted. -/
theorem C6_amended_format_display_name (loc : Location) :
    (loc.address = ⟨none, none, none, none, none⟩ →
        formatDisplayName loc = "") ∧
    (∀ c s1 co : String, c ≠ "" → s1 ≠ "" → co ≠ "" →
        loc.address.city = some c → loc.address.state = some s1 →
        loc.address.country = some co →
        formatDisplayName loc = c ++ ", " ++ s1 ++ ", " ++ co) ∧
    formatDisplayName parisLoc = "Paris, Île-de-France, France" := by
  obtain ⟨lat, lon, dn, a⟩ := loc
  obtain ⟨city, town, village, state1, country⟩ := a
  refine ⟨?_, ?_, rfl⟩
  · intro h
    cases h
    rfl
  · intro c s1 co hc hs hco hceq hseq hcoeq
    cases hceq
    cases hseq
    cases hcoeq
    have hcb : (c == "") = false := by simpa using hc
    have hsb : (s1 == "") = false := by simpa using hs
    have hcob : (co == "") = false := by simpa using hco
    simp only [formatDisplayName, truthy, hcb, hsb, hcob, Bool.not_false,
               if_true]
    rfl

/-- Witness for C6 amended: the city-preferring conjunct applied to the
Paris suggestion reproduces the provider label. -/
theorem C6_amended_format_display_name_witness :
    formatDisplayName parisLoc = "Paris" ++ ", " ++ "Île-de-France" ++ ", " ++ "France" :=
  (C6_amended_format_display_name parisLoc).2.1 "Paris" "Île-de-France"
    "France" (by decide) (by decide) (by decide) rfl rfl rfl

/-- JS expression "s.split(',')[0]" (WeatherPage lines 91 and 108): the
characters of s before its first comma (all of s when s has no comma). -/
def firstCommaSegment (s : String) : String :=
  ⟨s.data.takeWhile (fun ch => ch ≠ ',')⟩

/-- Reverse-geocode payload: a display_name and, optionally, a structured
address (the code reads it with optional chaining, data.address?.city). -/
structure ReverseGeocodeData where
  display_name : String
  address : Option Address
deriving Repr, DecidableEq

/-- The display label chosen by handleUseMyLocation (WeatherPage line 108):
"data.address?.city || data.address?.town || data.address?.village ||
'Your Location'". -/
def geoDisplayLabel (data : ReverseGeocodeData) : String :=
  jsOr (data.address.bind Address.city)
    (jsOr (data.address.bind Address.town)
      (jsOr (data.address.bind Address.village) "Your Location"))

/-- The granted-permission continuation of handleUseMyLocation (WeatherPage
lines 102-115) with the reverse geocode resolved: geoLoading is raised,
the label is computed and written to the query input, fetchWeatherData runs
with the stringified coordinates and data.display_name as the city name,
and finally geoLoading drops. -/
def handleUseMyLocationSuccess (st : SearchState) (lat lon : String)
    (data : ReverseGeocodeData) (outcome : FetchOutcome) : SearchState :=
  let st1 := { st with geoLoading := true }
  let name := geoDisplayLabel data
  let st2 := { st1 with query := name }
  let st3 := fetchWeatherData st2 lat lon data.display_name outcome
  { st3 with geoLoading := false }

/-- A reverse-geocode response with no city, town or village field. -/
def springfieldRev : ReverseGeocodeData :=
  ⟨"Springfield, Illinois, USA",
   some ⟨none, none, none, some "Illinois", some "USA"⟩⟩

/-- C7 counterexample: when city, town and village are all absent the code
falls back directly to the generic placeholder, not to the first
comma-delimited segment "Springfield"; and the Forecast Fetcher is invoked
with the FULL display_name (which becomes the displayed city), not with the
computed label. -/
theorem C7_counterexample :
    geoDisplayLabel springfieldRev = "Your Location" ∧
    firstCommaSegment springfieldRev.display_name = "Springfield" ∧
    geoDisplayLabel springfieldRev ≠ "Springfield" ∧
    (handleUseMyLocationSuccess initState "39.78" "-89.65" springfieldRev
        (.success sampleWeather)).selectedCity = "Springfield, Illinois, USA" := by
  exact ⟨rfl, by decide, by decide, rfl⟩

/-- C7 amended: the label prefers city, then town, then village, and
otherwise falls back directly to the generic placeholder (no comma-segment
step); that label is written to the query input, while the Forecast Fetcher
receives the coordinates together with the full display_name, which becomes
the displayed city name on success. -/
theorem C7_amended_current_position_label (st : SearchState)
    (lat lon : String) (data : ReverseGeocodeData) (w : WeatherData) :
    (∀ c, data.address.bind Address.city = some c → c ≠ "" →
        geoDisplayLabel data = c) ∧
    (data.address = none → geoDisplayLabel data = "Your Location") ∧
    (handleUseMyLocationSuccess st lat lon data (.success w)).query
        = geoDisplayLabel data ∧
    (handleUseMyLocationSuccess st lat lon data (.success w)).selectedCity
        = data.display_name := by
  refine ⟨?_, ?_, ?_, ?_⟩
  · intro c hc hne
    have hcb : (c == "") = false := by simpa using hne
    simp [geoDisplayLabel, jsOr, hc, hcb]
  · intro h
    simp [geoDisplayLabel, jsOr, h]
  · simp [handleUseMyLocationSuccess, fetchWeatherData]
  · simp [handleUseMyLocationSuccess, fetchWeatherData]

/-- The reverse-geocode response for Paris, with a city field. -/
def parisRev : ReverseGeocodeData :=
  ⟨"Paris, Île-de-France, France",
   some ⟨some "Paris", none, none, some "Île-de-France", some "France"⟩⟩

/-- Witness for C7 amended at the Paris reverse-geocode response: the label
is the city field. -/
theorem C7_amended_current_position_label_witness :
    geoDisplayLabel parisRev = "Paris" :=
  (C7_amended_current_position_label initState "48.85" "2.35" parisRev
      sampleWeather).1 "Paris" rfl (by decide)

/-- handleSelect of the WeatherPage draft (lines 90-94): unconditionally
overwrite the query with the first comma segment of the display_name, then
run fetchWeatherData with the suggestion coordinates and the full
display_name. -/
def handleSelect (st : SearchState) (loc : LocationSuggestion)
    (outcome : FetchOutcome) : SearchState :=
  let city := firstCommaSegment loc.display_name
  let st1 := { st with query := city }
  fetchWeatherData st1 loc.lat loc.lon loc.display_name outcome

/-- UI state of the part_000 draft WeatherAppWithSuggestions
(lines 36-41). -/
structure AppState where
  query : String
  suggestions : List Location
  selectedLocation : Option Location
  weather : Option WeatherDataP
  loading : Bool
  showSuggestions : Bool
deriving Repr, DecidableEq

/-- Initial state of the part_000 draft. -/
def appInitState : AppState :=
  { query := "", suggestions := [], selectedLocation := none,
    weather := none, loading := false, showSuggestions := false }

/-- fetchWeather of the part_000 draft (lines 74-89), as the state
transition of one settled selection-triggered fetch: setLoading(true); on
success set the weather and the selected location, hide the suggestion
dropdown, and write the formatted display name into the query input; on
rejection only an alert is shown (no state change); setLoading(false)
unconditionally afterwards. The query overwrite happens ONLY on the success
path. -/
def fetchWeather (st : AppState) (loc : Location)
    (outcome : Option WeatherDataP) : AppState :=
  let st1 := { st with loading := true }
  match outcome with
  | some data =>
      { st1 with weather := some data, selectedLocation := some loc,
                 showSuggestions := false, query := formatDisplayName loc,
                 loading := false }
  | none => { st1 with loading := false }

/-- A part_000 Location for Berlin with structured address fields. -/
def berlinLocP : Location :=
  ⟨"52.52", "13.405", "Berlin, Germany",
   ⟨some "Berlin", none, none, none, some "Germany"⟩⟩

/-- The part_000 state after typing "lond" with suggestions shown. -/
def c10state : AppState :=
  { appInitState with query := "lond", suggestions := [berlinLocP],
                      showSuggestions := true }

/-- C10 counterexample: in the part_000 draft, selecting the Berlin
suggestion whose forecast fetch fails leaves the typed query text "lond" in
place — the typed text survives the selection, and it is neither the first
comma segment nor the formatted label of the selected suggestion. -/
theorem C10_counterexample :
    (fetchWeather c10state berlinLocP none).query = "lond" ∧
    firstCommaSegment berlinLocP.display_name = "Berlin" ∧
    formatDisplayName berlinLocP = "Berlin, Germany" ∧
    ("lond" : String) ≠ "Berlin" ∧ ("lond" : String) ≠ "Berlin, Germany" := by
  exact ⟨rfl, by decide, rfl, by decide, by decide⟩

/-- C10 amended: in the WeatherPage draft every selection unconditionally
overwrites the query with the first comma segment of the suggestion label
(whatever the fetch outcome); in the part_000 draft the query is overwritten
with the formatted address label only when the forecast fetch succeeds — a
failed fetch leaves the typed text in place. -/
theorem C10_amended_selection_overwrites_query (st : SearchState)
    (loc : LocationSuggestion) (outcome : FetchOutcome) (st2 : AppState)
    (loc2 : Location) (data : WeatherDataP) :
    (handleSelect st loc outcome).query = firstCommaSegment loc.display_name ∧
    (fetchWeather st2 loc2 (some data)).query = formatDisplayName loc2 := by
  constructor
  · cases outcome <;> simp [handleSelect, fetchWeatherData]
  · simp [fetchWeather]

end WeatherApp
